import Mathlib

/-!
Shallow embedding of the WEBHOOK monitoring repository.

Source files embedded:
  * `config.py`             — static service and monitoring configuration.
  * `api_restart_manager.py` — kill / start / verify / restart workflow.
  * `multi_api_monitor.py`  — the LangGraph recovery state machine and the
    scheduling loop.

Modelling conventions:
  * Machine-level effects (process enumeration, `subprocess.Popen`,
    `requests.get`, SMTP delivery, console input, LLM calls) are abstracted
    as environment records whose fields give the outcome the outside world
    returns at each call site; every embedded function additionally returns
    the list of externally visible effects it performed, so that claims
    about "no call happens" are statements about the returned trace.
  * Python exceptions that the source code catches are modelled by the
    environment returning a failure value; exceptions that the source does
    NOT catch are modelled by `Except.error` results that propagate.
  * Python numeric values: every numeric literal in `config.py` is an
    integer, so Python floats are modelled as `Int` as well; `int(x)` /
    `float(x)` on a string are modelled through `String.toInt?` on the
    trimmed string (decimal integer literals, which is what the repository
    ever feeds them).
-/

namespace Webhook

/-! ### Python value model (for `MONITORING_CONFIG` entries) -/

/-- A Python configuration value: an integer, a string, or `None`. -/
inductive PyVal where
  | vInt : Int → PyVal
  | vStr : String → PyVal
  | vNone : PyVal
deriving DecidableEq, Repr

/-- Strip leading and trailing whitespace from a character list (what
Python `int(str)` does before parsing). -/
def stripWs (cs : List Char) : List Char :=
  ((cs.dropWhile Char.isWhitespace).reverse.dropWhile Char.isWhitespace).reverse

/-- Accumulate decimal digits; `none` as soon as a non-digit appears. -/
def digitsValAux (acc : Nat) : List Char → Option Nat
  | [] => some acc
  | c :: cs => if c.isDigit then digitsValAux (10 * acc + (c.toNat - 48)) cs else none

/-- Value of a non-empty all-digit character list. -/
def digitsVal : List Char → Option Nat
  | [] => none
  | c :: cs => if c.isDigit then digitsValAux (c.toNat - 48) cs else none

/-- Python `int(str)` on a decimal string: optional surrounding
whitespace, optional sign, then at least one digit; anything else is a
`ValueError`. -/
def pyStrToInt (s : String) : Option Int :=
  match stripWs s.toList with
  | '+' :: cs => (digitsVal cs).map (fun n => (n : Int))
  | '-' :: cs => (digitsVal cs).map (fun n => -(n : Int))
  | cs => (digitsVal cs).map (fun n => (n : Int))

/-- The Python builtin `int(x)`: succeeds on integers and on strings that
parse as a decimal integer; raises (`.error`) on other strings and on
`None`. -/
def pyInt : PyVal → Except String Int
  | .vInt i => .ok i
  | .vStr s =>
    match pyStrToInt s with
    | some i => .ok i
    | none => .error "ValueError"
  | .vNone => .error "TypeError"

/-- The Python builtin `float(x)`, specialised to the integral values the
repository configuration uses (floats are modelled as `Int`). -/
def pyFloat : PyVal → Except String Int := pyInt

/-- `_to_int(value, default)` from `api_restart_manager.py`: `int(value)`
with any exception converted into the default. -/
def to_int (value : PyVal) (dflt : Int) : Int :=
  match pyInt value with
  | .ok i => i
  | .error _ => dflt

/-- `_to_float(value, default)` from `api_restart_manager.py`. -/
def to_float (value : PyVal) (dflt : Int) : Int :=
  match pyFloat value with
  | .ok x => x
  | .error _ => dflt

/-- Python `dict.get(key, default)` over an association-list model of a
dict (first binding wins, as keys are unique in a Python dict). -/
def dict_get (cfg : List (String × PyVal)) (k : String) (dflt : PyVal) : PyVal :=
  match cfg.find? (fun kv => kv.1 == k) with
  | some kv => kv.2
  | none => dflt

/-! ### `config.py` -/

/-- One entry of `API_SERVICES` in `config.py`. -/
structure ServiceConfig where
  port : Nat
  health_url : String
  test_url : String
  app_module : String
deriving DecidableEq, Repr

/-- `API_SERVICES` from `config.py`. -/
def API_SERVICES : List (String × ServiceConfig) :=
  [ ("Multiply API",
      { port := 8001
        health_url := "http://localhost:8001/health"
        test_url := "http://localhost:8001/multiply?a=5&b=3"
        app_module := "multiply_app:app" }),
    ("Addition API",
      { port := 8002
        health_url := "http://localhost:8002/health"
        test_url := "http://localhost:8002/addition?a=10&b=5"
        app_module := "addition_app:app" }),
    ("Division API",
      { port := 8003
        health_url := "http://localhost:8003/health"
        test_url := "http://localhost:8003/division?a=20&b=4"
        app_module := "division_app:app" }) ]

/-- `API_SERVICES.get(api_name)` — dictionary lookup. -/
def get_service (api_name : String) : Option ServiceConfig :=
  match API_SERVICES.find? (fun kv => kv.1 == api_name) with
  | some kv => some kv.2
  | none => none

/-- `MONITORING_CONFIG` as shipped in `config.py` (the `setdefault` calls
there are no-ops because every key is already present). -/
def MONITORING_CONFIG : List (String × PyVal) :=
  [ ("check_interval", .vInt 15),
    ("restart_delay", .vInt 30),
    ("max_restart_attempts", .vInt 3),
    ("health_check_attempts", .vInt 10),
    ("health_check_wait", .vInt 3),
    ("health_check_timeout", .vInt 5) ]

/-! ### Numeric configuration reads in `multi_api_monitor.py`

`run_monitoring` executes `int(MONITORING_CONFIG.get("check_interval", 15))`
and then floors the result at 1; `attempt_restart` executes
`int(MONITORING_CONFIG.get("restart_delay", 30))` and floors at 0.  The
bare `int(...)` raises on a non-numeric configured value, which is why
these two reads return `Except`. -/

/-- The `check_interval` read in `run_monitoring` (floor 1). -/
def read_check_interval (cfg : List (String × PyVal)) : Except String Int := do
  let v ← pyInt (dict_get cfg "check_interval" (.vInt 15))
  pure (if v < 1 then 1 else v)

/-- The `restart_delay` read in `attempt_restart` (floor 0). -/
def read_restart_delay (cfg : List (String × PyVal)) : Except String Int := do
  let v ← pyInt (dict_get cfg "restart_delay" (.vInt 30))
  pure (if v < 0 then 0 else v)

/-! ### `api_restart_manager.py` -/

/-- `DEFAULT_MONITORING_CONFIG` from `api_restart_manager.py`. -/
def DEFAULT_MONITORING_CONFIG : List (String × PyVal) :=
  [ ("health_check_attempts", .vInt 10),
    ("health_check_wait", .vInt 3),
    ("health_check_timeout", .vInt 5) ]

/-- A lookup through `_merged_monitoring_config()`: defaults overlaid with
the `MONITORING_CONFIG` entries whose value is not `None`
(`cfg.update({k: v for k, v in MONITORING_CONFIG.items() if v is not None})`),
then `dict.get(key)` (whose default is `None`). -/
def merged_get (cfg : List (String × PyVal)) (k : String) : PyVal :=
  match (cfg.filter (fun kv => kv.2 != PyVal.vNone)).find? (fun kv => kv.1 == k) with
  | some kv => kv.2
  | none => dict_get DEFAULT_MONITORING_CONFIG k .vNone

/-- Result of one `requests.get` call: an HTTP response with status code
and body text, or a raised exception (connection failure / timeout). -/
inductive HttpResult where
  | status : Nat → String → HttpResult
  | exn : String → HttpResult
deriving DecidableEq, Repr

/-- `response.status_code == 200`. -/
def is_success_status : HttpResult → Bool
  | .status 200 _ => true
  | _ => false

/-- Externally visible effects of the restart manager. -/
inductive REffect where
  | killProc : Nat → Nat → REffect            -- pid, port: `proc.kill()` issued
  | launch : String → Nat → REffect           -- app module, port: `Popen` issued
  | probe : String → Int → Nat → REffect      -- url, timeout, attempt: `requests.get`
deriving DecidableEq, Repr

/-- Outside-world behaviour at the restart manager call sites. -/
structure RestartEnv where
  /-- `find_process_on_port(port)`: pid of the process holding the port. -/
  procOnPort : Nat → Option Nat
  /-- whether `proc.kill(); proc.wait(timeout=5)` completes without raising. -/
  killOk : Nat → Bool
  /-- `subprocess.Popen(...)`: pid of the launched process, or `none` when
  the launch raises. -/
  launched : String → Nat → Option Nat
  /-- response of `requests.get(health_url, timeout)` at verification
  attempt `k` (1-indexed). -/
  healthResp : Nat → HttpResult

/-- `kill_api_on_port(port)`: if a process holds the port, kill it and
report whether the kill succeeded; if none, report success ("nothing to
kill"). -/
def kill_api_on_port (env : RestartEnv) (port : Nat) : Bool × List REffect :=
  match env.procOnPort port with
  | some pid => (env.killOk pid, [.killProc pid port])
  | none => (true, [])

/-- `start_specific_api(api_name)`: unknown service name returns `None`
before any launch; otherwise `Popen` the uvicorn command (its failure is
caught and turned into `None`). -/
def start_specific_api (env : RestartEnv) (api_name : String) :
    Option Nat × List REffect :=
  match get_service api_name with
  | none => (none, [])
  | some c => (env.launched c.app_module c.port, [.launch c.app_module c.port])

/-- The three sanitized parameters computed at the top of
`verify_api_health`: `(max_attempts, wait_time, timeout)` after the
`_to_int`/`_to_float` reads and the floors
(`max_attempts < 1 → 1`, `wait_time < 0 → 0`,
`timeout ≤ 0 → default 5`). -/
def sanitized_verify_params (cfg : List (String × PyVal)) : Int × Int × Int :=
  let max_attempts := to_int (merged_get cfg "health_check_attempts") 10
  let wait_time := to_float (merged_get cfg "health_check_wait") 3
  let timeout := to_float (merged_get cfg "health_check_timeout") 5
  let max_attempts := if max_attempts < 1 then 1 else max_attempts
  let wait_time := if wait_time < 0 then 0 else wait_time
  let timeout := if timeout ≤ 0 then 5 else timeout
  (max_attempts, wait_time, timeout)

/-- The `for attempt in range(1, max_attempts + 1)` polling loop of
`verify_api_health`: `fuel` is the number of attempts left, `attempt` the
1-indexed attempt counter.  A 200 response returns `True` at once; any
other response or exception is caught, logged and the loop continues;
exhaustion returns `False`. -/
def verify_loop (env : RestartEnv) (url : String) (timeout : Int) :
    Nat → Nat → Bool × List REffect
  | 0, _ => (false, [])
  | fuel + 1, attempt =>
    if is_success_status (env.healthResp attempt) then
      (true, [.probe url timeout attempt])
    else
      let rest := verify_loop env url timeout fuel (attempt + 1)
      (rest.1, .probe url timeout attempt :: rest.2)

/-- `verify_api_health(api_name)`: unknown service name returns `False`
with no probe; otherwise sanitize the configuration and poll. -/
def verify_api_health (env : RestartEnv) (cfg : List (String × PyVal))
    (api_name : String) : Bool × List REffect :=
  match get_service api_name with
  | none => (false, [])
  | some c =>
    let p := sanitized_verify_params cfg
    verify_loop env c.health_url p.2.2 p.1.toNat 1

/-- `restart_specific_api(api_name)`: unknown name fails immediately;
otherwise step 1 kills the incumbent (its result only selects a warning
log line — execution continues either way), step 2 launches (a `None`
short-circuits to failure), step 3 verifies health and its result is
returned. -/
def restart_specific_api (env : RestartEnv) (cfg : List (String × PyVal))
    (api_name : String) : Bool × List REffect :=
  match get_service api_name with
  | none => (false, [])
  | some c =>
    let k := kill_api_on_port env c.port
    let st := start_specific_api env api_name
    match st.1 with
    | none => (false, k.2 ++ st.2)
    | some _ =>
      let v := verify_api_health env cfg api_name
      (v.1, k.2 ++ st.2 ++ v.2)

/-! ### Python string operations used by `agent_analyze` and `human_review`

`str.split`, `str.replace` and `str.strip` are modelled by structural
recursion over the character list so that they evaluate on concrete
inputs. -/

/-- `content.split("---")`: ordered leftmost matching of the three-dash
delimiter, keeping empty segments, exactly as Python `str.split` with a
multi-character separator. -/
def splitDashesAux : List Char → List Char → List (List Char)
  | [], acc => [acc.reverse]
  | '-' :: '-' :: '-' :: rest, acc => acc.reverse :: splitDashesAux rest []
  | c :: rest, acc => splitDashesAux rest (c :: acc)

/-- `s.split("---")` on strings. -/
def pySplit3Dash (s : String) : List String :=
  (splitDashesAux s.toList []).map (fun cs => String.mk cs)

/-- One fuel-indexed step of `s.replace(pat, "")`: remove every
non-overlapping occurrence of `pat`, scanning left to right (the fuel is
the list length, enough for the scan). -/
def replaceAux (pat : List Char) : Nat → List Char → List Char
  | 0, cs => cs
  | _ + 1, [] => []
  | fuel + 1, c :: rest =>
    if pat.isPrefixOf (c :: rest) then
      replaceAux pat fuel (List.drop (pat.length - 1) rest)
    else
      c :: replaceAux pat fuel rest

/-- `s.replace(pat, "")` on strings. -/
def pyRemove (pat : String) (s : String) : String :=
  String.mk (replaceAux pat.toList s.toList.length s.toList)

/-- `s.strip()`. -/
def pyStrip (s : String) : String := String.mk (stripWs s.toList)

/-! ### `multi_api_monitor.py` — the recovery state machine -/

/-- The `MonitorState` TypedDict. -/
structure MonitorState where
  api_name : String
  api_url : String
  api_port : Nat
  api_status : String
  error_details : String
  agent_analysis : String
  email_subject : String
  email_body : String
  human_approval : String
  action_taken : String
  email_sent : Bool
  restart_attempted : Bool
  recovery_status : String
  recovery_email_sent : Bool
deriving DecidableEq, Repr

/-- One console interaction round inside `human_review`'s `while True`
loop: choice "1" approves, "2" rejects, "3" replaces the email body,
"4" replaces the subject, anything else re-prompts without side effect. -/
inductive ReviewChoice where
  | approve : ReviewChoice
  | reject : ReviewChoice
  | editBody : String → ReviewChoice
  | editSubject : String → ReviewChoice
  | invalid : ReviewChoice
deriving DecidableEq, Repr

/-- Externally visible effects of one state-machine pass. -/
inductive MEvent where
  /-- a `send_email_alert(body, subject)` call; the `Bool` is the
  `is_recovery` flag computed at the call site. -/
  | deliver : Bool → String → String → MEvent
  /-- the `email_sent = True` assignment (alert-sent flag set). -/
  | alertFlagSet : MEvent
  /-- the `recovery_email_sent = True` assignment. -/
  | recoveryFlagSet : MEvent
  /-- a `restart_specific_api(api_name)` invocation. -/
  | restartCall : String → MEvent
deriving DecidableEq, Repr

/-- Outside-world behaviour during one pass of the graph for one service:
the health probe response, the drafting collaborator responses (an
`Except.error` is a raised exception at `llm.invoke`), the scripted
console inputs of the two review steps, the mail-delivery outcome, and
the result of `restart_specific_api` (which, as proved on the embedding
above, always returns a `Bool` and never raises). -/
structure MonitorEnv where
  httpGet : HttpResult
  llmAlert : Except String String
  llmRecovery : Except String String
  reviewAlert : List ReviewChoice
  reviewRecovery : List ReviewChoice
  deliverMail : String → String → Except String Unit
  restartResult : Bool

/-- `check_api_health`: classifies the probe result (its `try` block
catches every exception) and resets the per-pass send/restart flags. -/
def check_api_health (resp : HttpResult) (s : MonitorState) : MonitorState :=
  let s :=
    match resp with
    | .status code body =>
      if code = 200 then
        { s with api_status := "healthy"
                 error_details :=
                   s.api_name ++ " is functioning normally on port " ++ toString s.api_port }
      else
        { s with api_status := "unhealthy"
                 error_details := "Status Code: " ++ toString code ++ "\nResponse: " ++ body }
    | .exn e =>
      { s with api_status := "down"
               error_details := "Connection Error: " ++ e ++ "\nPort: " ++ toString s.api_port }
  { s with email_sent := false, restart_attempted := false, recovery_email_sent := false }

/-- `agent_analyze`: invoke the drafting collaborator (an exception there
is NOT caught and propagates), split the response on `"---"` and read
segments 0, 1, 2.  Fewer than three segments makes `parts[1]` or
`parts[2]` raise an uncaught `IndexError`.  (In Python the state fields
assigned before the raise are mutated in place, but that partially
mutated state is discarded with the crashed pass, so the model returns
only the error.) -/
def agent_analyze (resp : Except String String) (s : MonitorState) :
    Except String MonitorState :=
  match resp with
  | .error e => .error e
  | .ok content =>
    match pySplit3Dash content with
    | p0 :: p1 :: p2 :: _ =>
      .ok { s with agent_analysis := pyStrip (pyRemove "ANALYSIS:" p0)
                   email_subject := pyStrip (pyRemove "SUBJECT:" p1)
                   email_body := pyStrip (pyRemove "EMAIL_BODY:" p2) }
    | _ => .error "IndexError: list index out of range"

/-- The `while True` input loop of `human_review`; `none` models the
script running out of inputs (the blocked/EOF case, which the source
does not catch either). -/
def human_review (script : List ReviewChoice) (s : MonitorState) :
    Option MonitorState :=
  match script with
  | [] => none
  | c :: rest =>
    match c with
    | .approve => some { s with human_approval := "approved" }
    | .reject => some { s with human_approval := "rejected" }
    | .editBody b => human_review rest { s with email_body := b }
    | .editSubject subj => human_review rest { s with email_subject := pyStrip subj }
    | .invalid => human_review rest s

/-- `send_email_action`: skip when the relevant already-sent flag is up;
on approval call `send_email_alert(body, subject)` — a delivery exception
is caught and recorded in `action_taken` — and set the relevant sent
flag; on any other approval value record a cancellation and send
nothing. -/
def send_email_action (deliver : String → String → Except String Unit)
    (s : MonitorState) : MonitorState × List MEvent :=
  if (s.recovery_status == "success") && s.recovery_email_sent then (s, [])
  else if (!(s.recovery_status == "success")) && s.email_sent then (s, [])
  else if s.human_approval = "approved" then
    match deliver s.email_body s.email_subject with
    | .ok _ =>
      if s.recovery_status == "success" then
        ({ s with action_taken := "Email sent successfully ✅", recovery_email_sent := true },
         [.deliver true s.email_subject s.email_body, .recoveryFlagSet])
      else
        ({ s with action_taken := "Email sent successfully ✅", email_sent := true },
         [.deliver false s.email_subject s.email_body, .alertFlagSet])
    | .error e =>
      ({ s with action_taken := "Failed to send email: " ++ e },
       [.deliver (s.recovery_status == "success") s.email_subject s.email_body])
  else
    ({ s with action_taken := "Email cancelled by user ❌" }, [])

/-- `attempt_restart`: wait the (sanitized) restart delay, call
`restart_specific_api`, record the attempt and the recovery status.
With the repository `config.py`, `restart_delay` is the integer 30, so
the delay read cannot raise and only the restart call is observable. -/
def attempt_restart (restartResult : Bool) (s : MonitorState) :
    MonitorState × List MEvent :=
  ({ s with restart_attempted := true
            recovery_status := if restartResult then "success" else "failed" },
   [.restartCall s.api_name])

/-- One `graph.invoke(initial_state)` for one service: the LangGraph wiring
of `create_monitoring_graph` linearised.  `check_health` routes healthy
to END; otherwise `analyze_alert → human_review_alert → send_alert_email
→ attempt_restart`, then `check_recovery` routes a successful restart to
`analyze_recovery → human_review_recovery → send_recovery_email → END`
and a failed one to END.  An uncaught exception in any node aborts the
whole invocation with that error. -/
def run_monitoring_pass (env : MonitorEnv) (s0 : MonitorState) :
    Except String MonitorState × List MEvent :=
  let s1 := check_api_health env.httpGet s0
  if s1.api_status = "healthy" then (.ok s1, [])
  else
    match agent_analyze env.llmAlert s1 with
    | .error e => (.error e, [])
    | .ok s2 =>
      match human_review env.reviewAlert s2 with
      | none => (.error "EOFError", [])
      | some s3 =>
        let p4 := send_email_action env.deliverMail s3
        let p5 := attempt_restart env.restartResult p4.1
        if p5.1.recovery_status = "success" then
          match agent_analyze env.llmRecovery p5.1 with
          | .error e => (.error e, p4.2 ++ p5.2)
          | .ok s6 =>
            match human_review env.reviewRecovery s6 with
            | none => (.error "EOFError", p4.2 ++ p5.2)
            | some s7 =>
              let p8 := send_email_action env.deliverMail s7
              (.ok p8.1, p4.2 ++ p5.2 ++ p8.2)
        else (.ok p5.1, p4.2 ++ p5.2)

/-- The `initial_state` dictionary built in `run_monitoring` for each
service. -/
def initial_state (name url : String) (port : Nat) : MonitorState :=
  { api_name := name
    api_url := url
    api_port := port
    api_status := ""
    error_details := ""
    agent_analysis := ""
    email_subject := ""
    email_body := ""
    human_approval := ""
    action_taken := ""
    email_sent := false
    restart_attempted := false
    recovery_status := ""
    recovery_email_sent := false }

/-- One iteration of the `while True` scheduling loop in `run_monitoring`:
`graph.invoke` for every configured service in order.  There is no
`try`/`except` around `graph.invoke`, so the first pass that raises
aborts the whole loop (the `Except` short-circuits as the exception
does). -/
def run_monitoring_tick (envs : String → MonitorEnv) :
    Except String (List MonitorState) :=
  API_SERVICES.mapM
    (fun kv => (run_monitoring_pass (envs kv.1) (initial_state kv.1 kv.2.health_url kv.2.port)).1)

/-! ### Helper predicates and general lemmas -/

/-- Is this restart-manager effect a health probe? -/
def isProbeEffect : REffect → Bool
  | .probe _ _ _ => true
  | _ => false

/-- Is this restart-manager effect a process launch attempt? -/
def isLaunchEffect : REffect → Bool
  | .launch _ _ => true
  | _ => false

/-- Is this restart-manager effect a kill of an incumbent process? -/
def isKillEffect : REffect → Bool
  | .killProc _ _ => true
  | _ => false

/-- Is this pass event a mail-delivery call? -/
def isDeliverEvent : MEvent → Bool
  | .deliver _ _ _ => true
  | _ => false

/-- Is this pass event an alert-phase mail-delivery call
(`is_recovery = false` at the call site)? -/
def isAlertDeliverEvent : MEvent → Bool
  | .deliver false _ _ => true
  | _ => false

/-- Is this pass event the `email_sent = True` assignment? -/
def isAlertFlagEvent : MEvent → Bool
  | .alertFlagSet => true
  | _ => false

/-- Is this pass event the `recovery_email_sent = True` assignment? -/
def isRecoveryFlagEvent : MEvent → Bool
  | .recoveryFlagSet => true
  | _ => false

/-- Is this pass event a `restart_specific_api` invocation? -/
def isRestartCallEvent : MEvent → Bool
  | .restartCall _ => true
  | _ => false

/-- `sub` occurs as a contiguous substring of `hay`. -/
def ContainsSub (hay sub : String) : Prop := ∃ a b, hay = a ++ sub ++ b

theorem string_append_assoc (a b c : String) : a ++ b ++ c = a ++ (b ++ c) := by
  apply String.ext
  simp [String.data_append]

/-- Every iteration of the verification loop issues exactly one probe, so
the trace is bounded by the remaining fuel. -/
theorem verify_loop_length (env : RestartEnv) (url : String) (timeout : Int) :
    ∀ fuel attempt, (verify_loop env url timeout fuel attempt).2.length ≤ fuel := by
  intro fuel
  induction fuel with
  | zero => intro attempt; simp [verify_loop]
  | succ n ih =>
    intro attempt
    cases h : is_success_status (env.healthResp attempt)
    · simpa [verify_loop, h] using Nat.succ_le_succ (ih (attempt + 1))
    · simp [verify_loop, h]

/-- The verification loop reports success exactly when one of the attempts
it may perform gets a 200 response. -/
theorem verify_loop_true_iff (env : RestartEnv) (url : String) (timeout : Int) :
    ∀ fuel attempt, (verify_loop env url timeout fuel attempt).1 = true ↔
      ∃ i, i < fuel ∧ is_success_status (env.healthResp (attempt + i)) = true := by
  intro fuel
  induction fuel with
  | zero => intro attempt; simp [verify_loop]
  | succ n ih =>
    intro attempt
    cases h : is_success_status (env.healthResp attempt)
    · simp only [verify_loop, h]
      simp only [Bool.false_eq_true, if_false]
      rw [ih (attempt + 1)]
      constructor
      · rintro ⟨i, hi, hs⟩
        exact ⟨i + 1, Nat.succ_lt_succ hi, by
          have heq : attempt + 1 + i = attempt + (i + 1) := by omega
          rwa [heq] at hs⟩
      · rintro ⟨i, hi, hs⟩
        cases i with
        | zero =>
          rw [Nat.add_zero] at hs
          rw [hs] at h
          exact absurd h (by simp)
        | succ j =>
          exact ⟨j, Nat.lt_of_succ_lt_succ hi, by
            have heq : attempt + (j + 1) = attempt + 1 + j := by omega
            rwa [heq] at hs⟩
    · simp only [verify_loop, h, if_true]
      constructor
      · intro _
        exact ⟨0, Nat.succ_pos n, by simpa using h⟩
      · intro _
        trivial

/-- The verification loop reads only the `healthResp` field of the
environment. -/
theorem verify_loop_congr (env env' : RestartEnv)
    (h : env.healthResp = env'.healthResp) (url : String) (timeout : Int) :
    ∀ fuel attempt,
      verify_loop env url timeout fuel attempt = verify_loop env' url timeout fuel attempt := by
  intro fuel
  induction fuel with
  | zero => intro attempt; rfl
  | succ n ih =>
    intro attempt
    simp only [verify_loop, h, ih (attempt + 1)]

/-- `verify_api_health` reads only the `healthResp` field of the
environment. -/
theorem verify_api_health_congr (env env' : RestartEnv)
    (h : env.healthResp = env'.healthResp) (cfg : List (String × PyVal))
    (api_name : String) :
    verify_api_health env cfg api_name = verify_api_health env' cfg api_name := by
  unfold verify_api_health
  cases hs : get_service api_name with
  | none => rfl
  | some c =>
    exact verify_loop_congr env env' h c.health_url (sanitized_verify_params cfg).2.2
      (sanitized_verify_params cfg).1.toNat 1

/-! ### Concrete environments used by witnesses and counterexamples -/

/-- A world where no process holds any port, launches succeed (pid 4242)
and the health endpoint answers 200 at once. -/
def envAllGood : RestartEnv :=
  { procOnPort := fun _ => none
    killOk := fun _ => true
    launched := fun _ _ => some 4242
    healthResp := fun _ => .status 200 "OK" }

/-- A world where pid 77 holds every port and refuses to die, yet launch
and verification succeed. -/
def envKillFails : RestartEnv :=
  { procOnPort := fun _ => some 77
    killOk := fun _ => false
    launched := fun _ _ => some 99
    healthResp := fun _ => .status 200 "OK" }

/-- A world where pid 55 holds every port and dies cleanly; launches
succeed and the health endpoint answers 200. -/
def envKillSucceeds : RestartEnv :=
  { procOnPort := fun _ => some 55
    killOk := fun _ => true
    launched := fun _ _ => some 99
    healthResp := fun _ => .status 200 "OK" }

/-! ### Claim C10 -/

/-- Claim C10: for every `api_name` that is not a configured service key,
`restart_specific_api` returns failure without killing, launching or
probing anything (empty effect trace); `start_specific_api` returns no
process handle and `verify_api_health` returns failure, likewise with no
effects. -/
theorem claim_C10_unknown_service (env : RestartEnv) (cfg : List (String × PyVal))
    (api_name : String) (h : get_service api_name = none) :
    restart_specific_api env cfg api_name = (false, []) ∧
    start_specific_api env api_name = (none, []) ∧
    verify_api_health env cfg api_name = (false, []) := by
  refine ⟨?_, ?_, ?_⟩ <;> simp [restart_specific_api, start_specific_api, verify_api_health, h]

/-- Witness for C10 at the unconfigured name "Telemetry API". -/
theorem claim_C10_unknown_service_witness :
    get_service "Telemetry API" = none ∧
    (restart_specific_api envAllGood [] "Telemetry API" = (false, []) ∧
     start_specific_api envAllGood "Telemetry API" = (none, []) ∧
     verify_api_health envAllGood [] "Telemetry API" = (false, [])) :=
  ⟨by decide, claim_C10_unknown_service envAllGood [] "Telemetry API" (by decide)⟩

/-! ### Claim C9 -/

/-- Claim C9: calling the restarter when no process holds the target port
behaves like calling it when the incumbent is terminated successfully —
`kill_api_on_port` reports success in both worlds, the overall restart
result is the same, and both runs proceed to the launch step. -/
theorem claim_C9_kill_idempotent (env : RestartEnv) (cfg : List (String × PyVal))
    (api_name : String) (c : ServiceConfig) (pid : Nat)
    (hs : get_service api_name = some c)
    (hp : env.procOnPort c.port = some pid)
    (hk : env.killOk pid = true) :
    (kill_api_on_port env c.port).1 = true ∧
    (kill_api_on_port { env with procOnPort := fun _ => none } c.port).1 = true ∧
    (restart_specific_api env cfg api_name).1 =
      (restart_specific_api { env with procOnPort := fun _ => none } cfg api_name).1 ∧
    (restart_specific_api env cfg api_name).2.any isLaunchEffect = true ∧
    (restart_specific_api { env with procOnPort := fun _ => none } cfg api_name).2.any
      isLaunchEffect = true := by
  have hv := verify_api_health_congr env { env with procOnPort := fun _ => none } rfl cfg api_name
  refine ⟨by simp [kill_api_on_port, hp, hk], by simp [kill_api_on_port], ?_, ?_, ?_⟩ <;>
    cases hl : env.launched c.app_module c.port <;>
      simp [restart_specific_api, start_specific_api, kill_api_on_port,
        hs, hp, hk, hl, hv, isLaunchEffect]

/-- Witness for C9: "Multiply API" with pid 55 holding port 8001 and dying
cleanly versus the empty port. -/
theorem claim_C9_kill_idempotent_witness :
    (get_service "Multiply API" =
      some { port := 8001
             health_url := "http://localhost:8001/health"
             test_url := "http://localhost:8001/multiply?a=5&b=3"
             app_module := "multiply_app:app" } ∧
     envKillSucceeds.procOnPort 8001 = some 55 ∧
     envKillSucceeds.killOk 55 = true) ∧
    ((kill_api_on_port envKillSucceeds 8001).1 = true ∧
     (kill_api_on_port { envKillSucceeds with procOnPort := fun _ => none } 8001).1 = true ∧
     (restart_specific_api envKillSucceeds [] "Multiply API").1 =
       (restart_specific_api { envKillSucceeds with procOnPort := fun _ => none } [] "Multiply API").1 ∧
     (restart_specific_api envKillSucceeds [] "Multiply API").2.any isLaunchEffect = true ∧
     (restart_specific_api { envKillSucceeds with procOnPort := fun _ => none } [] "Multiply API").2.any
       isLaunchEffect = true) :=
  ⟨⟨by decide, by decide, by decide⟩,
   claim_C9_kill_idempotent envKillSucceeds [] "Multiply API"
     { port := 8001
       health_url := "http://localhost:8001/health"
       test_url := "http://localhost:8001/multiply?a=5&b=3"
       app_module := "multiply_app:app" } 55 (by decide) (by decide) (by decide)⟩

/-! ### Claim C3 -/

/-- A concrete run refuting claim C3 as stated: pid 77 cannot be killed
(step 1 fails), yet launch and verification succeed and
`restart_specific_api` returns success — step-1 failure does not
short-circuit the restart to failure. -/
theorem claim_C3_counterexample :
    (kill_api_on_port envKillFails 8001).1 = false ∧
    (restart_specific_api envKillFails [] "Multiply API").1 = true := by
  constructor <;> decide

/-- Claim C3 amended: `restart` returns success iff step 2 (launch) and
step 3 (verification) both succeed — a launch failure short-circuits to
failure without a single health probe being attempted, while a failure of
step 1 (locate & terminate) only selects a warning log line and has no
influence on the restart result. -/
theorem claim_C3_amended (env : RestartEnv) (cfg : List (String × PyVal))
    (api_name : String) (c : ServiceConfig) (hs : get_service api_name = some c) :
    (env.launched c.app_module c.port = none →
      (restart_specific_api env cfg api_name).1 = false ∧
      (restart_specific_api env cfg api_name).2.countP isProbeEffect = 0) ∧
    (∀ pid, env.launched c.app_module c.port = some pid →
      (restart_specific_api env cfg api_name).1 = (verify_api_health env cfg api_name).1) ∧
    (∀ k, (restart_specific_api { env with killOk := k } cfg api_name).1 =
      (restart_specific_api env cfg api_name).1) := by
  refine ⟨?_, ?_, ?_⟩
  · intro hl
    cases hp : env.procOnPort c.port <;>
      simp [restart_specific_api, start_specific_api, kill_api_on_port, hs, hl, hp,
        isProbeEffect]
  · intro pid hl
    cases hp : env.procOnPort c.port <;>
      simp [restart_specific_api, start_specific_api, kill_api_on_port, hs, hl, hp]
  · intro k
    have hv := verify_api_health_congr { env with killOk := k } env rfl cfg api_name
    cases hl : env.launched c.app_module c.port <;>
      cases hp : env.procOnPort c.port <;>
        simp [restart_specific_api, start_specific_api, kill_api_on_port, hs, hl, hp, hv]

/-- Witness for the amended C3 at "Multiply API" in the all-good world. -/
theorem claim_C3_amended_witness :
    get_service "Multiply API" =
      some { port := 8001
             health_url := "http://localhost:8001/health"
             test_url := "http://localhost:8001/multiply?a=5&b=3"
             app_module := "multiply_app:app" } ∧
    (∀ pid, envAllGood.launched "multiply_app:app" 8001 = some pid →
      (restart_specific_api envAllGood [] "Multiply API").1 =
        (verify_api_health envAllGood [] "Multiply API").1) :=
  ⟨by decide,
   (claim_C3_amended envAllGood [] "Multiply API"
     { port := 8001
       health_url := "http://localhost:8001/health"
       test_url := "http://localhost:8001/multiply?a=5&b=3"
       app_module := "multiply_app:app" } (by decide)).2.1⟩

/-! ### Claim C4 -/

/-- The configuration exercised by claim C4: `health_check_attempts = 0`,
`health_check_wait = -5`, `health_check_timeout = 0`. -/
def cfgDegenerate : List (String × PyVal) :=
  [ ("health_check_attempts", .vInt 0),
    ("health_check_wait", .vInt (-5)),
    ("health_check_timeout", .vInt 0) ]

/-- Claim C4: attempts 0 is sanitized to 1, wait -5 to 0, timeout 0 to the
default 5; under that configuration verification performs exactly one
probe, with timeout 5, and succeeds iff that first response is a 200.  In
general the probe trace is bounded by the sanitized attempt count and the
result is success iff some attempt within that bound sees a 200. -/
theorem claim_C4_sanitized_verification :
    sanitized_verify_params cfgDegenerate = (1, 0, 5) ∧
    (∀ env api_name c, get_service api_name = some c →
      verify_api_health env cfgDegenerate api_name =
        (is_success_status (env.healthResp 1), [.probe c.health_url 5 1])) ∧
    (∀ env cfg api_name,
      (verify_api_health env cfg api_name).2.length ≤ (sanitized_verify_params cfg).1.toNat) ∧
    (∀ env cfg api_name c, get_service api_name = some c →
      ((verify_api_health env cfg api_name).1 = true ↔
        ∃ k, 1 ≤ k ∧ k ≤ (sanitized_verify_params cfg).1.toNat ∧
          is_success_status (env.healthResp k) = true)) := by
  have hparams : sanitized_verify_params cfgDegenerate = (1, 0, 5) := by decide
  refine ⟨hparams, ?_, ?_, ?_⟩
  · intro env api_name c hs
    unfold verify_api_health
    rw [hs, hparams]
    cases hb : is_success_status (env.healthResp 1) <;>
      simp [verify_loop, hb]
  · intro env cfg api_name
    unfold verify_api_health
    cases hs : get_service api_name with
    | none => simp
    | some c => simpa using verify_loop_length env c.health_url _ _ 1
  · intro env cfg api_name c hs
    unfold verify_api_health
    rw [hs]
    rw [verify_loop_true_iff env c.health_url _ _ 1]
    constructor
    · rintro ⟨i, hi, hsucc⟩
      exact ⟨1 + i, by omega, by omega, hsucc⟩
    · rintro ⟨k, hk1, hk2, hsucc⟩
      exact ⟨k - 1, by omega, by
        have heq : 1 + (k - 1) = k := by omega
        rwa [heq]⟩

/-- Witness for C4 at "Addition API" in the all-good world: one probe with
timeout 5, immediate success. -/
theorem claim_C4_sanitized_verification_witness :
    verify_api_health envAllGood cfgDegenerate "Addition API" =
      (true, [.probe "http://localhost:8002/health" 5 1]) := by
  have h := claim_C4_sanitized_verification.2.1 envAllGood "Addition API"
    { port := 8002
      health_url := "http://localhost:8002/health"
      test_url := "http://localhost:8002/addition?a=10&b=5"
      app_module := "addition_app:app" } (by decide)
  rw [h]
  decide

/-! ### Claim C5 -/

/-- A concrete run refuting claim C5 as stated: a non-numeric
`check_interval` (or `restart_delay`) makes the bare `int(...)` in
`run_monitoring` (resp. `attempt_restart`) raise a `ValueError` instead
of falling back to the default. -/
theorem claim_C5_counterexample :
    read_check_interval [("check_interval", PyVal.vStr "fifteen")] = .error "ValueError" ∧
    read_check_interval [("check_interval", PyVal.vStr "fifteen")] ≠ .ok 15 ∧
    read_restart_delay [("restart_delay", PyVal.vStr "thirty")] = .error "ValueError" ∧
    read_restart_delay [("restart_delay", PyVal.vStr "thirty")] ≠ .ok 30 := by
  have h1 : read_check_interval [("check_interval", PyVal.vStr "fifteen")] =
      .error "ValueError" := rfl
  have h2 : read_restart_delay [("restart_delay", PyVal.vStr "thirty")] =
      .error "ValueError" := rfl
  refine ⟨h1, ?_, h2, ?_⟩
  · rw [h1]
    intro h
    exact Except.noConfusion h
  · rw [h2]
    intro h
    exact Except.noConfusion h

/-- Claim C5 amended: the three health-check fields read through
`_merged_monitoring_config` and `_to_int`/`_to_float` tolerate missing,
`None` and non-numeric values by falling back to the defaults (10, 3, 5);
`check_interval` and `restart_delay` fall back to their defaults (15, 30)
only when the key is missing — a non-numeric value makes the bare
`int(...)` raise instead of falling back. -/
theorem claim_C5_amended :
    sanitized_verify_params [] = (10, 3, 5) ∧
    (∀ s : String, pyStrToInt s = none →
      sanitized_verify_params
        [ ("health_check_attempts", PyVal.vStr s),
          ("health_check_wait", PyVal.vStr s),
          ("health_check_timeout", PyVal.vStr s) ] = (10, 3, 5)) ∧
    sanitized_verify_params
      [ ("health_check_attempts", PyVal.vNone),
        ("health_check_wait", PyVal.vNone),
        ("health_check_timeout", PyVal.vNone) ] = (10, 3, 5) ∧
    read_check_interval [] = .ok 15 ∧
    read_restart_delay [] = .ok 30 ∧
    (∀ s : String, pyStrToInt s = none →
      read_check_interval [("check_interval", PyVal.vStr s)] = .error "ValueError" ∧
      read_restart_delay [("restart_delay", PyVal.vStr s)] = .error "ValueError") := by
  refine ⟨by decide, ?_, by decide, rfl, rfl, ?_⟩
  · intro s h
    simp [sanitized_verify_params, merged_get, dict_get, to_int, to_float, pyInt, pyFloat, h]
  · intro s h
    constructor <;>
      simp [read_check_interval, read_restart_delay, dict_get, pyInt, h, Except.bind]

/-- Witness for the amended C5 at the non-numeric string "oops". -/
theorem claim_C5_amended_witness :
    pyStrToInt "oops" = none ∧
    sanitized_verify_params
      [ ("health_check_attempts", PyVal.vStr "oops"),
        ("health_check_wait", PyVal.vStr "oops"),
        ("health_check_timeout", PyVal.vStr "oops") ] = (10, 3, 5) ∧
    read_check_interval [("check_interval", PyVal.vStr "oops")] = .error "ValueError" :=
  ⟨by decide, claim_C5_amended.2.1 "oops" (by decide),
   (claim_C5_amended.2.2.2.2.2 "oops" (by decide)).1⟩

/-! ### Claim C8 -/

/-- Claim C8: the health probe is total (the embedding returns a plain
`MonitorState`, mirroring the catch-all `try`/`except` in
`check_api_health`) and maps a 200 response to status "healthy", any
other reachable response to "unhealthy" with the status code and body in
the detail, and a raised connection error to "down" (the code's encoding
of the spec's `unreachable`) with the error text in the detail. -/
theorem claim_C8_probe_outcomes (s : MonitorState) :
    (∀ body, (check_api_health (.status 200 body) s).api_status = "healthy") ∧
    (∀ code body, code ≠ 200 →
      (check_api_health (.status code body) s).api_status = "unhealthy" ∧
      (check_api_health (.status code body) s).error_details =
        "Status Code: " ++ toString code ++ "\nResponse: " ++ body ∧
      ContainsSub (check_api_health (.status code body) s).error_details (toString code) ∧
      ContainsSub (check_api_health (.status code body) s).error_details body) ∧
    (∀ e, (check_api_health (.exn e) s).api_status = "down" ∧
      (check_api_health (.exn e) s).error_details =
        "Connection Error: " ++ e ++ "\nPort: " ++ toString s.api_port ∧
      ContainsSub (check_api_health (.exn e) s).error_details e) := by
  refine ⟨?_, ?_, ?_⟩
  · intro body
    simp [check_api_health]
  · intro code body hc
    have hdet : (check_api_health (.status code body) s).error_details =
        "Status Code: " ++ toString code ++ "\nResponse: " ++ body := by
      simp [check_api_health, hc]
    refine ⟨by simp [check_api_health, hc], hdet,
      ⟨"Status Code: ", "\nResponse: " ++ body, ?_⟩,
      ⟨"Status Code: " ++ toString code ++ "\nResponse: ", "", ?_⟩⟩
    · rw [hdet]
      apply String.ext
      simp [String.data_append]
    · rw [hdet]
      apply String.ext
      simp [String.data_append]
  · intro e
    have hdet : (check_api_health (.exn e) s).error_details =
        "Connection Error: " ++ e ++ "\nPort: " ++ toString s.api_port := by
      simp [check_api_health]
    refine ⟨by simp [check_api_health], hdet,
      ⟨"Connection Error: ", "\nPort: " ++ toString s.api_port, ?_⟩⟩
    rw [hdet]
    apply String.ext
    simp [String.data_append]

/-- Witness for C8 at a 503 response on the initial state of
"Division API". -/
theorem claim_C8_probe_outcomes_witness :
    (check_api_health (.status 503 "overloaded")
        (initial_state "Division API" "http://localhost:8003/health" 8003)).api_status =
      "unhealthy" ∧
    (check_api_health (.status 503 "overloaded")
        (initial_state "Division API" "http://localhost:8003/health" 8003)).error_details =
      "Status Code: " ++ toString 503 ++ "\nResponse: " ++ "overloaded" :=
  ⟨((claim_C8_probe_outcomes
      (initial_state "Division API" "http://localhost:8003/health" 8003)).2.1 503 "overloaded"
      (by decide)).1,
   ((claim_C8_probe_outcomes
      (initial_state "Division API" "http://localhost:8003/health" 8003)).2.1 503 "overloaded"
      (by decide)).2.1⟩

/-! ### Lemmas about the state-machine nodes -/

/-- The decision a review input script reaches: `some true` approval,
`some false` rejection, `none` when the script is exhausted first (edits
and invalid inputs only loop). -/
def review_decision : List ReviewChoice → Option Bool
  | [] => none
  | c :: rest =>
    match c with
    | .approve => some true
    | .reject => some false
    | .editBody _ => review_decision rest
    | .editSubject _ => review_decision rest
    | .invalid => review_decision rest

/-- Does a drafting-collaborator response parse: no raised exception and
at least three dash-delimited segments? -/
def draft_ok : Except String String → Bool
  | .ok content =>
    match pySplit3Dash content with
    | _ :: _ :: _ :: _ => true
    | _ => false
  | .error _ => false

/-- `human_review` only rewrites `email_subject`, `email_body` and
`human_approval`; every other field survives the loop. -/
theorem human_review_pres (cs : List ReviewChoice) (s s' : MonitorState)
    (h : human_review cs s = some s') :
    s'.api_name = s.api_name ∧ s'.api_status = s.api_status ∧
    s'.email_sent = s.email_sent ∧ s'.recovery_email_sent = s.recovery_email_sent ∧
    s'.recovery_status = s.recovery_status ∧ s'.action_taken = s.action_taken ∧
    s'.restart_attempted = s.restart_attempted := by
  induction cs generalizing s with
  | nil => simp [human_review] at h
  | cons c rest ih =>
    cases c with
    | approve =>
      simp only [human_review, Option.some.injEq] at h
      subst h
      exact ⟨rfl, rfl, rfl, rfl, rfl, rfl, rfl⟩
    | reject =>
      simp only [human_review, Option.some.injEq] at h
      subst h
      exact ⟨rfl, rfl, rfl, rfl, rfl, rfl, rfl⟩
    | editBody b =>
      simp only [human_review] at h
      exact ih { s with email_body := b } h
    | editSubject subj =>
      simp only [human_review] at h
      exact ih { s with email_subject := pyStrip subj } h
    | invalid =>
      simp only [human_review] at h
      exact ih s h

/-- A script that reaches a decision makes `human_review` terminate with
the corresponding `human_approval` value. -/
theorem human_review_decision (cs : List ReviewChoice) (b : Bool)
    (hd : review_decision cs = some b) :
    ∀ s : MonitorState, ∃ s', human_review cs s = some s' ∧
      s'.human_approval = (if b then "approved" else "rejected") := by
  induction cs with
  | nil => simp [review_decision] at hd
  | cons c rest ih =>
    intro s
    cases c with
    | approve =>
      simp only [review_decision, Option.some.injEq] at hd
      subst hd
      exact ⟨_, rfl, rfl⟩
    | reject =>
      simp only [review_decision, Option.some.injEq] at hd
      subst hd
      exact ⟨_, rfl, rfl⟩
    | editBody b2 => exact ih (by simpa [review_decision] using hd) _
    | editSubject s2 => exact ih (by simpa [review_decision] using hd) _
    | invalid => exact ih (by simpa [review_decision] using hd) _

/-- A parsable drafting response makes `agent_analyze` succeed. -/
theorem agent_analyze_ok (r : Except String String) (hr : draft_ok r = true)
    (s : MonitorState) : ∃ s', agent_analyze r s = .ok s' := by
  cases r with
  | error e => simp [draft_ok] at hr
  | ok content =>
    rcases hsp : pySplit3Dash content with _ | ⟨p0, _ | ⟨p1, _ | ⟨p2, t⟩⟩⟩
    · simp [draft_ok, hsp] at hr
    · simp [draft_ok, hsp] at hr
    · simp [draft_ok, hsp] at hr
    · cases hA : agent_analyze (.ok content) s with
      | ok s2 => exact ⟨s2, rfl⟩
      | error e =>
        exfalso
        simp [agent_analyze, hsp] at hA

/-- A response with fewer than three dash-delimited segments makes
`agent_analyze` raise the `IndexError` uncaught. -/
theorem agent_analyze_short (content : String)
    (h : (pySplit3Dash content).length < 3) (s : MonitorState) :
    agent_analyze (.ok content) s = .error "IndexError: list index out of range" := by
  rcases hsp : pySplit3Dash content with _ | ⟨p0, _ | ⟨p1, _ | ⟨p2, t⟩⟩⟩
  · simp [agent_analyze, hsp]
  · simp [agent_analyze, hsp]
  · simp [agent_analyze, hsp]
  · rw [hsp] at h
    simp only [List.length_cons] at h
    omega

/-- `agent_analyze` only rewrites the analysis, subject and body fields. -/
theorem agent_analyze_pres (r : Except String String) (s s' : MonitorState)
    (h : agent_analyze r s = .ok s') :
    s'.api_name = s.api_name ∧ s'.api_status = s.api_status ∧
    s'.email_sent = s.email_sent ∧ s'.recovery_email_sent = s.recovery_email_sent ∧
    s'.recovery_status = s.recovery_status ∧ s'.human_approval = s.human_approval ∧
    s'.action_taken = s.action_taken ∧ s'.restart_attempted = s.restart_attempted := by
  cases r with
  | error e => simp [agent_analyze] at h
  | ok content =>
    rcases hsp : pySplit3Dash content with _ | ⟨p0, _ | ⟨p1, _ | ⟨p2, t⟩⟩⟩
    · simp [agent_analyze, hsp] at h
    · simp [agent_analyze, hsp] at h
    · simp [agent_analyze, hsp] at h
    · simp only [agent_analyze, hsp, Except.ok.injEq] at h
      subst h
      exact ⟨rfl, rfl, rfl, rfl, rfl, rfl, rfl, rfl⟩

/-- Event counts of a single `send_email_action` call: at most one flag
assignment of each kind and never a restart invocation. -/
theorem send_email_action_counts (d : String → String → Except String Unit)
    (s : MonitorState) :
    (send_email_action d s).2.countP isAlertFlagEvent ≤ 1 ∧
    (send_email_action d s).2.countP isRecoveryFlagEvent ≤ 1 ∧
    (send_email_action d s).2.countP isRestartCallEvent = 0 := by
  unfold send_email_action
  cases hd : d s.email_body s.email_subject <;>
    cases hr : (s.recovery_status == "success") <;>
      cases hre : s.recovery_email_sent <;>
        cases hes : s.email_sent <;>
          by_cases ha : s.human_approval = "approved" <;>
            simp [hd, hr, hre, hes, ha, isAlertFlagEvent, isRecoveryFlagEvent,
              isRestartCallEvent, List.countP_cons, List.countP_nil]

/-- The skip guard: a recovery send whose flag is already up does
nothing. -/
theorem send_email_action_skip (d : String → String → Except String Unit)
    (s : MonitorState) (h1 : s.recovery_status = "success")
    (h2 : s.recovery_email_sent = true) :
    send_email_action d s = (s, []) := by
  unfold send_email_action
  simp [h1, h2]

/-- In the recovery phase (`recovery_status = "success"`) the send step
never touches the alert flag and never performs an alert-tagged
delivery. -/
theorem send_email_action_recovery_phase (d : String → String → Except String Unit)
    (s : MonitorState) (h : s.recovery_status = "success") :
    (send_email_action d s).2.countP isAlertFlagEvent = 0 ∧
    (send_email_action d s).2.countP isAlertDeliverEvent = 0 := by
  unfold send_email_action
  cases hd : d s.email_body s.email_subject <;>
    cases hre : s.recovery_email_sent <;>
      by_cases ha : s.human_approval = "approved" <;>
        simp [h, hd, hre, ha, isAlertFlagEvent, isAlertDeliverEvent,
          List.countP_cons, List.countP_nil]

/-- If a `send_email_action` call emitted the recovery-flag event, the
resulting state has `recovery_email_sent = true`. -/
theorem send_email_action_sets_flag (d : String → String → Except String Unit)
    (s : MonitorState)
    (h : 1 ≤ (send_email_action d s).2.countP isRecoveryFlagEvent) :
    (send_email_action d s).1.recovery_email_sent = true := by
  unfold send_email_action at h ⊢
  cases hd : d s.email_body s.email_subject <;>
    cases hr : (s.recovery_status == "success") <;>
      cases hre : s.recovery_email_sent <;>
        cases hes : s.email_sent <;>
          by_cases ha : s.human_approval = "approved" <;>
            simp [hd, hr, hre, hes, ha, isRecoveryFlagEvent,
              List.countP_cons, List.countP_nil] at h ⊢

/-- `send_email_action` never changes `recovery_status` or `api_name`. -/
theorem send_email_action_pres (d : String → String → Except String Unit)
    (s : MonitorState) :
    (send_email_action d s).1.recovery_status = s.recovery_status ∧
    (send_email_action d s).1.api_name = s.api_name := by
  unfold send_email_action
  cases hd : d s.email_body s.email_subject <;>
    cases hr : (s.recovery_status == "success") <;>
      cases hre : s.recovery_email_sent <;>
        cases hes : s.email_sent <;>
          by_cases ha : s.human_approval = "approved" <;>
            simp [hd, hr, hre, hes, ha]

/-- A rejected (more generally, non-approved) review in the alert phase
makes the send step record a cancellation and send nothing. -/
theorem send_email_action_rejected (d : String → String → Except String Unit)
    (s : MonitorState) (ha : s.human_approval ≠ "approved")
    (hrs : s.recovery_status ≠ "success") (hes : s.email_sent = false) :
    send_email_action d s =
      ({ s with action_taken := "Email cancelled by user ❌" }, []) := by
  have hrb : (s.recovery_status == "success") = false := by
    cases hb : (s.recovery_status == "success") with
    | true => exact absurd (eq_of_beq hb) hrs
    | false => rfl
  unfold send_email_action
  simp [hrb, hes, ha]

/-- `check_api_health` resets the three per-pass flags and leaves
`recovery_status`, `human_approval` and `api_name` alone. -/
theorem check_api_health_pres (r : HttpResult) (s : MonitorState) :
    (check_api_health r s).recovery_status = s.recovery_status ∧
    (check_api_health r s).email_sent = false ∧
    (check_api_health r s).recovery_email_sent = false ∧
    (check_api_health r s).api_name = s.api_name ∧
    (check_api_health r s).human_approval = s.human_approval := by
  cases r with
  | status code body => by_cases h : code = 200 <;> simp [check_api_health, h]
  | exn e => simp [check_api_health]

theorem countP_alert_restart (name : String) :
    List.countP isAlertFlagEvent [MEvent.restartCall name] = 0 := by
  simp [isAlertFlagEvent]

theorem countP_recovery_restart (name : String) :
    List.countP isRecoveryFlagEvent [MEvent.restartCall name] = 0 := by
  simp [isRecoveryFlagEvent]

theorem countP_restart_restart (name : String) :
    List.countP isRestartCallEvent [MEvent.restartCall name] = 1 := by
  simp [isRestartCallEvent]

theorem countP_deliver_restart (name : String) :
    List.countP isDeliverEvent [MEvent.restartCall name] = 0 := by
  simp [isDeliverEvent]

theorem countP_alert_deliver_restart (name : String) :
    List.countP isAlertDeliverEvent [MEvent.restartCall name] = 0 := by
  simp [isAlertDeliverEvent]

/-! ### Claim C6 -/

/-- Claim C6: within one pass of the state machine (one RecoveryRun), the
`email_sent` flag is assigned `true` at most once, the
`recovery_email_sent` flag is assigned `true` at most once, and
`restart_specific_api` is invoked at most once — for every environment
and every starting state. -/
theorem claim_C6_at_most_once (env : MonitorEnv) (s0 : MonitorState) :
    (run_monitoring_pass env s0).2.countP isAlertFlagEvent ≤ 1 ∧
    (run_monitoring_pass env s0).2.countP isRecoveryFlagEvent ≤ 1 ∧
    (run_monitoring_pass env s0).2.countP isRestartCallEvent ≤ 1 := by
  obtain ⟨hcRS, hcES, hcRES, hcN, hcAP⟩ := check_api_health_pres env.httpGet s0
  unfold run_monitoring_pass
  by_cases hH : (check_api_health env.httpGet s0).api_status = "healthy"
  · rw [if_pos hH]
    simp
  · rw [if_neg hH]
    cases hA : agent_analyze env.llmAlert (check_api_health env.httpGet s0) with
    | error e => simp [hA]
    | ok s2 =>
      obtain ⟨hA2N, hA2St, hA2ES, hA2RES, hA2RS, hA2AP, hA2AT, hA2RA⟩ :=
        agent_analyze_pres _ _ _ hA
      cases hR : human_review env.reviewAlert s2 with
      | none => simp [hA, hR]
      | some s3 =>
        obtain ⟨hR3N, hR3St, hR3ES, hR3RES, hR3RS, hR3AT, hR3RA⟩ :=
          human_review_pres _ _ _ hR
        obtain ⟨hc4A, hc4R, hc4C⟩ := send_email_action_counts env.deliverMail s3
        obtain ⟨hp4RS, hp4N⟩ := send_email_action_pres env.deliverMail s3
        simp only [hA, hR]
        cases hres : env.restartResult with
        | false =>
          simp only [attempt_restart, hres, Bool.false_eq_true, if_false]
          have hne : ("failed" : String) ≠ "success" := by decide
          simp only [hne, if_false]
          simp only [List.countP_append, countP_alert_restart, countP_recovery_restart,
            countP_restart_restart]
          omega
        | true =>
          simp only [attempt_restart, hres, if_true]
          have hs5RS :
              ({ (send_email_action env.deliverMail s3).1 with
                  restart_attempted := true,
                  recovery_status := "success" } : MonitorState).recovery_status =
                "success" := rfl
          cases hA6 : agent_analyze env.llmRecovery
              { (send_email_action env.deliverMail s3).1 with
                restart_attempted := true, recovery_status := "success" } with
          | error e =>
            simp only [hA6, List.countP_append, countP_alert_restart,
              countP_recovery_restart, countP_restart_restart]
            omega
          | ok s6 =>
            obtain ⟨hA6N, hA6St, hA6ES, hA6RES, hA6RS, hA6AP, hA6AT, hA6RA⟩ :=
              agent_analyze_pres _ _ _ hA6
            cases hR7 : human_review env.reviewRecovery s6 with
            | none =>
              simp only [hA6, hR7, List.countP_append, countP_alert_restart,
                countP_recovery_restart, countP_restart_restart]
              omega
            | some s7 =>
              obtain ⟨hR7N, hR7St, hR7ES, hR7RES, hR7RS, hR7AT, hR7RA⟩ :=
                human_review_pres _ _ _ hR7
              have hs7RS : s7.recovery_status = "success" := by
                rw [hR7RS, hA6RS]
              have h8alert :=
                send_email_action_recovery_phase env.deliverMail s7 hs7RS
              obtain ⟨hc8A, hc8R, hc8C⟩ := send_email_action_counts env.deliverMail s7
              simp only [hA6, hR7]
              by_cases hflag :
                  1 ≤ (send_email_action env.deliverMail s3).2.countP isRecoveryFlagEvent
              · have hset := send_email_action_sets_flag env.deliverMail s3 hflag
                have hs7RES : s7.recovery_email_sent = true := by
                  rw [hR7RES, hA6RES]
                  exact hset
                have hskip := send_email_action_skip env.deliverMail s7 hs7RS hs7RES
                simp only [hskip, List.countP_append, List.countP_nil, countP_alert_restart,
                  countP_recovery_restart, countP_restart_restart]
                omega
              · have hzero :
                    (send_email_action env.deliverMail s3).2.countP isRecoveryFlagEvent = 0 := by
                  omega
                simp only [List.countP_append, countP_alert_restart,
                  countP_recovery_restart, countP_restart_restart]
                omega

/-- A failed probe never classifies the service as healthy. -/
theorem check_api_health_not_healthy (r : HttpResult) (s : MonitorState)
    (h : is_success_status r = false) :
    (check_api_health r s).api_status ≠ "healthy" := by
  cases r with
  | status code body =>
    by_cases hc : code = 200
    · subst hc
      simp [is_success_status] at h
    · simp [check_api_health, hc]
  | exn e => simp [check_api_health]

/-! ### Claim C7 -/

/-- Claim C7: when the probe fails, the alert draft parses and the human
rejects it, the alert send step performs no delivery call (no alert
delivery event, and the `email_sent` flag is never set), the pass still
reaches the RESTART phase, and — when the restart fails, so that nothing
later overwrites `action_taken` — the pass completes with the action
recorded as cancelled and `email_sent` still false. -/
theorem claim_C7_rejected_alert (env : MonitorEnv) (name url : String) (port : Nat)
    (hprobe : is_success_status env.httpGet = false)
    (hdraft : draft_ok env.llmAlert = true)
    (hdec : review_decision env.reviewAlert = some false) :
    (run_monitoring_pass env (initial_state name url port)).2.countP isAlertDeliverEvent = 0 ∧
    (run_monitoring_pass env (initial_state name url port)).2.countP isAlertFlagEvent = 0 ∧
    1 ≤ (run_monitoring_pass env (initial_state name url port)).2.countP isRestartCallEvent ∧
    (env.restartResult = false →
      ∃ sfin, (run_monitoring_pass env (initial_state name url port)).1 = .ok sfin ∧
        sfin.action_taken = "Email cancelled by user ❌" ∧
        sfin.email_sent = false) := by
  obtain ⟨hcRS, hcES, hcRES, hcN, hcAP⟩ :=
    check_api_health_pres env.httpGet (initial_state name url port)
  have hH := check_api_health_not_healthy env.httpGet (initial_state name url port) hprobe
  obtain ⟨s2, hA⟩ := agent_analyze_ok env.llmAlert hdraft
    (check_api_health env.httpGet (initial_state name url port))
  obtain ⟨hA2N, hA2St, hA2ES, hA2RES, hA2RS, hA2AP, hA2AT, hA2RA⟩ :=
    agent_analyze_pres _ _ _ hA
  obtain ⟨s3, hR, hR3AP⟩ := human_review_decision env.reviewAlert false hdec s2
  obtain ⟨hR3N, hR3St, hR3ES, hR3RES, hR3RS, hR3AT, hR3RA⟩ :=
    human_review_pres _ _ _ hR
  have hs3ES : s3.email_sent = false := by
    rw [hR3ES, hA2ES, hcES]
  have hs3RS : s3.recovery_status ≠ "success" := by
    rw [hR3RS, hA2RS, hcRS]
    simp [initial_state]
  have hs3AP : s3.human_approval ≠ "approved" := by
    rw [hR3AP]
    decide
  have hsend := send_email_action_rejected env.deliverMail s3 hs3AP hs3RS hs3ES
  unfold run_monitoring_pass
  rw [if_neg hH]
  simp only [hA, hR, hsend]
  cases hres : env.restartResult with
  | false =>
    simp only [attempt_restart, hres, Bool.false_eq_true, if_false]
    have hne : ("failed" : String) ≠ "success" := by decide
    simp only [hne, if_false]
    refine ⟨by simp [isAlertDeliverEvent], by simp [isAlertFlagEvent],
      by simp [isRestartCallEvent], fun _ => ⟨_, rfl, rfl, ?_⟩⟩
    exact hs3ES
  | true =>
    simp only [attempt_restart, hres, if_true]
    have hs5RS :
        ({ ({ s3 with action_taken := "Email cancelled by user ❌" } : MonitorState) with
            restart_attempted := true, recovery_status := "success" } :
          MonitorState).recovery_status = "success" := rfl
    cases hA6 : agent_analyze env.llmRecovery
        { ({ s3 with action_taken := "Email cancelled by user ❌" } : MonitorState) with
          restart_attempted := true, recovery_status := "success" } with
    | error e =>
      refine ⟨by simp [hA6, isAlertDeliverEvent], by simp [hA6, isAlertFlagEvent],
        by simp [hA6, isRestartCallEvent], fun hcon => absurd hcon (by decide)⟩
    | ok s6 =>
      obtain ⟨hA6N, hA6St, hA6ES, hA6RES, hA6RS, hA6AP, hA6AT, hA6RA⟩ :=
        agent_analyze_pres _ _ _ hA6
      cases hR7 : human_review env.reviewRecovery s6 with
      | none =>
        refine ⟨by simp [hA6, hR7, isAlertDeliverEvent], by simp [hA6, hR7, isAlertFlagEvent],
          by simp [hA6, hR7, isRestartCallEvent], fun hcon => absurd hcon (by decide)⟩
      | some s7 =>
        obtain ⟨hR7N, hR7St, hR7ES, hR7RES, hR7RS, hR7AT, hR7RA⟩ :=
          human_review_pres _ _ _ hR7
        have hs7RS : s7.recovery_status = "success" := by
          rw [hR7RS, hA6RS]
        obtain ⟨h8A, h8D⟩ := send_email_action_recovery_phase env.deliverMail s7 hs7RS
        simp only [hA6, hR7]
        refine ⟨?_, ?_, ?_, fun hcon => absurd hcon (by decide)⟩
        · simp only [List.countP_append, List.countP_nil, countP_alert_deliver_restart, h8D]
        · simp only [List.countP_append, List.countP_nil, countP_alert_restart, h8A]
        · simp only [List.countP_append, List.countP_nil, countP_restart_restart]
          omega

/-! ### Concrete monitor environments -/

/-- A well-formed three-segment alert draft. -/
def goodAlertDraft : String :=
  "ANALYSIS: service is down---SUBJECT: Alert---EMAIL_BODY: Hi Team, it is down"

/-- A well-formed three-segment recovery draft. -/
def goodRecoveryDraft : String :=
  "ANALYSIS: recovered---SUBJECT: Recovery---EMAIL_BODY: Hi Team, it is back"

/-- A malformed draft with only two dash-delimited segments. -/
def shortDraft : String := "ANALYSIS: truncated---SUBJECT: no body"

/-- Probe fails, drafts parse, the human rejects the alert, restart
fails. -/
def envRejected : MonitorEnv :=
  { httpGet := .exn "ConnectionError"
    llmAlert := .ok goodAlertDraft
    llmRecovery := .ok goodRecoveryDraft
    reviewAlert := [.reject]
    reviewRecovery := [.approve]
    deliverMail := fun _ _ => .ok ()
    restartResult := false }

/-- Probe fails, drafts parse, the human approves both, restart
succeeds. -/
def envApproved : MonitorEnv :=
  { envRejected with reviewAlert := [.approve], restartResult := true }

/-- Probe fails and the alert draft has only two segments. -/
def envShortAlertDraft : MonitorEnv :=
  { envApproved with llmAlert := .ok shortDraft }

/-- Probe fails, a good alert draft is approved and delivered, restart
succeeds, and then the recovery draft has only two segments. -/
def envShortRecoveryDraft : MonitorEnv :=
  { envApproved with llmRecovery := .ok shortDraft }

/-- Witness for C7 in `envRejected` at "Multiply API". -/
theorem claim_C7_rejected_alert_witness :
    (run_monitoring_pass envRejected
        (initial_state "Multiply API" "http://localhost:8001/health" 8001)).2.countP
          isAlertDeliverEvent = 0 ∧
    (run_monitoring_pass envRejected
        (initial_state "Multiply API" "http://localhost:8001/health" 8001)).2.countP
          isAlertFlagEvent = 0 ∧
    1 ≤ (run_monitoring_pass envRejected
        (initial_state "Multiply API" "http://localhost:8001/health" 8001)).2.countP
          isRestartCallEvent ∧
    (envRejected.restartResult = false →
      ∃ sfin, (run_monitoring_pass envRejected
          (initial_state "Multiply API" "http://localhost:8001/health" 8001)).1 = .ok sfin ∧
        sfin.action_taken = "Email cancelled by user ❌" ∧
        sfin.email_sent = false) :=
  claim_C7_rejected_alert envRejected "Multiply API" "http://localhost:8001/health" 8001
    (by decide) (by decide) (by decide)

/-! ### Claim C1 -/

/-- A concrete run refuting claim C1 as stated: with an alert draft of
only two segments the `IndexError` raised inside `agent_analyze` escapes
the pass, and the scheduling iteration of `run_monitoring` (which wraps
`graph.invoke` in no `try`/`except`) crashes with it. -/
theorem claim_C1_counterexample :
    (run_monitoring_pass envShortAlertDraft
        (initial_state "Multiply API" "http://localhost:8001/health" 8001)).1 =
      .error "IndexError: list index out of range" ∧
    run_monitoring_tick (fun _ => envShortAlertDraft) =
      .error "IndexError: list index out of range" :=
  ⟨rfl, rfl⟩

/-- Claim C1 amended: delivery failures and restart failures are caught
and converted into state-machine outcomes — with parsable drafts and
terminating reviews a pass always completes with `.ok`, whatever the
mail-delivery and restart outcomes — but drafting failures are not
caught: a raised collaborator exception or a response with fewer than
three segments propagates out of the pass (and, per the counterexample,
crashes the scheduling loop in `run_monitoring`). -/
theorem claim_C1_amended :
    (∀ env : MonitorEnv, ∀ name url : String, ∀ port : Nat,
      draft_ok env.llmAlert = true → draft_ok env.llmRecovery = true →
      (∃ b, review_decision env.reviewAlert = some b) →
      (∃ b, review_decision env.reviewRecovery = some b) →
      ∃ s, (run_monitoring_pass env (initial_state name url port)).1 = .ok s) ∧
    (∀ env : MonitorEnv, ∀ name url : String, ∀ port : Nat, ∀ e : String,
      is_success_status env.httpGet = false → env.llmAlert = .error e →
      (run_monitoring_pass env (initial_state name url port)).1 = .error e) ∧
    (∀ env : MonitorEnv, ∀ name url : String, ∀ port : Nat, ∀ content : String,
      is_success_status env.httpGet = false → env.llmAlert = .ok content →
      (pySplit3Dash content).length < 3 →
      (run_monitoring_pass env (initial_state name url port)).1 =
        .error "IndexError: list index out of range") := by
  refine ⟨?_, ?_, ?_⟩
  · rintro env name url port hdA hdR ⟨b1, hdec1⟩ ⟨b2, hdec2⟩
    by_cases hH : (check_api_health env.httpGet (initial_state name url port)).api_status =
      "healthy"
    · refine ⟨check_api_health env.httpGet (initial_state name url port), ?_⟩
      unfold run_monitoring_pass
      rw [if_pos hH]
    · obtain ⟨s2, hA⟩ := agent_analyze_ok env.llmAlert hdA
        (check_api_health env.httpGet (initial_state name url port))
      obtain ⟨s3, hR, -⟩ := human_review_decision env.reviewAlert b1 hdec1 s2
      unfold run_monitoring_pass
      rw [if_neg hH]
      simp only [hA, hR]
      cases hres : env.restartResult with
      | false =>
        simp only [attempt_restart, hres, Bool.false_eq_true, if_false]
        have hne : ("failed" : String) ≠ "success" := by decide
        simp only [hne, if_false]
        exact ⟨_, rfl⟩
      | true =>
        simp only [attempt_restart, hres, if_true]
        obtain ⟨s6, hA6⟩ := agent_analyze_ok env.llmRecovery hdR
          { (send_email_action env.deliverMail s3).1 with
            restart_attempted := true, recovery_status := "success" }
        obtain ⟨s7, hR7, -⟩ := human_review_decision env.reviewRecovery b2 hdec2 s6
        simp only [hA6, hR7]
        exact ⟨_, rfl⟩
  · intro env name url port e hprobe hllm
    have hH := check_api_health_not_healthy env.httpGet (initial_state name url port) hprobe
    unfold run_monitoring_pass
    rw [if_neg hH]
    simp [hllm, agent_analyze]
  · intro env name url port content hprobe hllm hshort
    have hH := check_api_health_not_healthy env.httpGet (initial_state name url port) hprobe
    have hA := agent_analyze_short content hshort
      (check_api_health env.httpGet (initial_state name url port))
    unfold run_monitoring_pass
    rw [if_neg hH]
    simp [hllm, hA]

/-- Witness for the amended C1: a full approved pass in `envApproved`
completes without an escaping exception. -/
theorem claim_C1_amended_witness :
    ∃ s, (run_monitoring_pass envApproved
        (initial_state "Addition API" "http://localhost:8002/health" 8002)).1 = .ok s :=
  claim_C1_amended.1 envApproved "Addition API" "http://localhost:8002/health" 8002
    (by decide) (by decide) ⟨true, by decide⟩ ⟨true, by decide⟩

/-! ### Claim C2 -/

/-- A concrete run refuting claim C2 as stated: the recovery draft has
only two segments, the pass does abort with the parse `IndexError`, yet a
notification send (the approved alert email) already occurred in that
same pass. -/
theorem claim_C2_counterexample :
    envShortRecoveryDraft.llmRecovery = .ok shortDraft ∧
    (pySplit3Dash shortDraft).length < 3 ∧
    (run_monitoring_pass envShortRecoveryDraft
        (initial_state "Addition API" "http://localhost:8002/health" 8002)).1 =
      .error "IndexError: list index out of range" ∧
    1 ≤ (run_monitoring_pass envShortRecoveryDraft
        (initial_state "Addition API" "http://localhost:8002/health" 8002)).2.countP
          isDeliverEvent :=
  ⟨rfl, by decide, rfl, by decide⟩

/-- Claim C2 amended: a drafting response with fewer than three
`---`-delimited segments always fails the parse with an uncaught
`IndexError`, aborting the pass at that drafting phase with no further
sends; when the malformed response is the alert draft the pass performs
no notification send at all (empty event trace) — but when it is the
recovery draft, the alert approved earlier in the same pass may already
have been delivered. -/
theorem claim_C2_amended :
    (∀ content : String, ∀ s : MonitorState, (pySplit3Dash content).length < 3 →
      agent_analyze (.ok content) s = .error "IndexError: list index out of range") ∧
    (∀ env : MonitorEnv, ∀ name url : String, ∀ port : Nat, ∀ content : String,
      is_success_status env.httpGet = false → env.llmAlert = .ok content →
      (pySplit3Dash content).length < 3 →
      run_monitoring_pass env (initial_state name url port) =
        (.error "IndexError: list index out of range", [])) := by
  constructor
  · intro content s h
    exact agent_analyze_short content h s
  · intro env name url port content hprobe hllm hshort
    have hH := check_api_health_not_healthy env.httpGet (initial_state name url port) hprobe
    have hA := agent_analyze_short content hshort
      (check_api_health env.httpGet (initial_state name url port))
    unfold run_monitoring_pass
    rw [if_neg hH]
    simp [hllm, hA]

/-- Witness for the amended C2: a two-segment alert draft aborts the pass
with the parse error and an empty event trace (no send of any kind). -/
theorem claim_C2_amended_witness :
    run_monitoring_pass envShortAlertDraft
        (initial_state "Multiply API" "http://localhost:8001/health" 8001) =
      (.error "IndexError: list index out of range", []) :=
  claim_C2_amended.2 envShortAlertDraft "Multiply API" "http://localhost:8001/health" 8001
    shortDraft (by decide) rfl (by decide)

end Webhook
